import Mathlib

/-!
Verification of the metric-mapper and output-writer logic of
marcopaganini/smartcollector (smartcollector.go), via a shallow embedding
of the Go code into Lean.

Modelling choices:

* A Go `interface{}` attribute value as returned by the SmartThings API is
  one of: a string, a `float64`, or `nil`.  We embed it as the inductive
  type `GoValue`.  The `float64` payload is represented by `ℚ` (`Rat`):
  the program performs no floating-point arithmetic, only type assertions
  and pass-through, so every float value flows through unchanged and an
  exact numeric carrier is faithful.

* Go's default textual rendering of a `float64` (the `%v` verb of
  `fmt.Sprintf`) is platform/library behaviour that we do not re-implement;
  every definition that renders a value takes an explicit rendering
  function `fmtF : ℚ → String` as a parameter.  Claims about line shape
  hold for every such rendering function.

* `fmt.Errorf` messages are embedded as the literal `String` the format
  string produces.  The `%q` verb is modelled as surrounding the string
  with double quotes; the escaping `%q` applies to special characters
  inside the string is not modelled (none of the literals involved contain
  special characters).

* The filesystem touched by `saveTimeSeries` is an association list from
  path to file contents, and failure of each OS call is injected through
  an explicit environment `FSEnv`.
-/

/-- GoValue is a dynamic Go `interface{}` value as found in
`DeviceInfo.Attributes`: a string, a `float64` (carried exactly as `ℚ`),
or `nil`. -/
inductive GoValue where
  | vstr (s : String)
  | vnum (x : ℚ)
  | vnil
deriving DecidableEq, Repr

/-- goShow models the `%v` verb of `fmt.Sprintf` applied to a dynamic
value: a string prints raw, a float prints with the platform rendering
`fmtF`, and `nil` prints as `<nil>`. -/
def goShow (fmtF : ℚ → String) : GoValue → String
  | GoValue.vstr s => s
  | GoValue.vnum x => fmtF x
  | GoValue.vnil => "<nil>"

/-- goQuote models the `%q` verb of `fmt.Sprintf` on a string: the string
surrounded by double quotes (escaping of special characters inside the
string is not modelled). -/
def goQuote (s : String) : String := "\"" ++ s ++ "\""

/-- DeviceInfo is the part of `gosmart.DeviceInfo` the program reads: the
device identifier, the display name, and the attribute map.  Go iterates
the map in unspecified order; we embed the attributes as an association
list and iterate in list order. -/
structure DeviceInfo where
  ID : String
  DisplayName : String
  Attributes : List (String × GoValue)

/-- valueClear embeds the Go function `valueClear` (smartcollector.go
lines 187–196) exactly as written: a non-string argument is an error;
otherwise `return 0.0` when `val != "clear"` and `return 1.0` when
`val == "clear"`.  (Note: the function's own doc comment in the source
says the opposite: 0 for "clear", 1 for anything else.) -/
def valueClear (fmtF : ℚ → String) (v : GoValue) : Except String ℚ :=
  match v with
  | GoValue.vstr val =>
      if val ≠ "clear" then Except.ok 0
      else Except.ok 1
  | _ => Except.error ("invalid non-string argument " ++ goShow fmtF v)

/-- valueOneOf embeds the Go function `valueOneOf` (smartcollector.go
lines 201–213): 0.0 if the string value matches the first option, 1.0 if
it matches the second, an error naming the value and both options
otherwise; non-string arguments are an error.  In the source `options` is
a `[]string` always of length two; we embed it as a pair. -/
def valueOneOf (fmtF : ℚ → String) (v : GoValue) (options : String × String) :
    Except String ℚ :=
  match v with
  | GoValue.vstr val =>
      if val = options.1 then Except.ok 0
      else if val = options.2 then Except.ok 1
      else Except.error ("invalid option " ++ goQuote val ++ ". Expected " ++
        goQuote options.1 ++ " or " ++ goQuote options.2)
  | _ => Except.error ("invalid non-string argument " ++ goShow fmtF v)

/-- valueFloat embeds the Go function `valueFloat` (smartcollector.go
lines 217–223): the value passes through when its dynamic type is
`float64`, and anything else (including a numeric-looking string) is an
error. -/
def valueFloat (fmtF : ℚ → String) (v : GoValue) : Except String ℚ :=
  match v with
  | GoValue.vnum val => Except.ok val
  | _ => Except.error ("invalid non floating-point argument " ++ goShow fmtF v)

/-- valOpenClosed is the option pair for the `contact` attribute. -/
def valOpenClosed : String × String := ("open", "closed")

/-- valInactiveActive is the option pair for the `motion` attribute. -/
def valInactiveActive : String × String := ("inactive", "active")

/-- valAbsentPresent is the option pair for the `presence` attribute. -/
def valAbsentPresent : String × String := ("absent", "present")

/-- valOffOn is the option pair for the `switch` attribute. -/
def valOffOn : String × String := ("off", "on")

/-- attrValue embeds the `switch k` dispatch inside `getTimeSeries`
(smartcollector.go lines 149–175): `none` is the `default: continue`
branch (unrecognized key, skipped), `some r` is the interpretation result
of a recognized key. -/
def attrValue (fmtF : ℚ → String) (k : String) (val : GoValue) :
    Option (Except String ℚ) :=
  if k = "alarmState" then some (valueClear fmtF val)
  else if k = "battery" then some (valueFloat fmtF val)
  else if k = "carbonMonoxide" then some (valueClear fmtF val)
  else if k = "contact" then some (valueOneOf fmtF val valOpenClosed)
  else if k = "energy" then some (valueFloat fmtF val)
  else if k = "motion" then some (valueOneOf fmtF val valInactiveActive)
  else if k = "power" then some (valueFloat fmtF val)
  else if k = "presence" then some (valueOneOf fmtF val valAbsentPresent)
  else if k = "smoke" then some (valueClear fmtF val)
  else if k = "switch" then some (valueOneOf fmtF val valOffOn)
  else if k = "temperature" then some (valueFloat fmtF val)
  else none

/-- metricLine embeds the `fmt.Sprintf` at smartcollector.go line 179:
`smartthings_sensors{id="<id>" name="<name>" attr="<k>"} = <value>`. -/
def metricLine (fmtF : ℚ → String) (id name k : String) (value : ℚ) : String :=
  "smartthings_sensors\x7bid=\"" ++ id ++ "\" name=\"" ++ name ++
    "\" attr=\"" ++ k ++ "\"\x7d = " ++ fmtF value

/-- nilToEmpty embeds the nil-normalisation at smartcollector.go lines
145–147: a `nil` attribute value is converted to the empty string before
interpretation. -/
def nilToEmpty : GoValue → GoValue
  | GoValue.vnil => GoValue.vstr ""
  | v => v

/-- getTimeSeriesAux is the loop body of `getTimeSeries` over the
attribute list, threading the accumulated output lines `acc`; on the
first interpretation error the whole call returns that error and no
lines. -/
def getTimeSeriesAux (fmtF : ℚ → String) (id name : String)
    (acc : List String) : List (String × GoValue) → Except String (List String)
  | [] => Except.ok acc
  | (k, val0) :: rest =>
      let val := nilToEmpty val0
      match attrValue fmtF k val with
      | none => getTimeSeriesAux fmtF id name acc rest
      | some (Except.error e) => Except.error e
      | some (Except.ok value) =>
          getTimeSeriesAux fmtF id name
            (acc ++ [metricLine fmtF id name k value]) rest

/-- getTimeSeries embeds the Go function `getTimeSeries`
(smartcollector.go lines 131–182): it folds the device's attributes into
metric lines, failing fast on the first interpretation error. -/
def getTimeSeries (fmtF : ℚ → String) (devinfo : DeviceInfo) :
    Except String (List String) :=
  getTimeSeriesAux fmtF devinfo.ID devinfo.DisplayName [] devinfo.Attributes

/-- collectAll embeds the device loop of `main` (smartcollector.go lines
78–90): each device's lines are appended to the running list `ts`, and an
error from `getTimeSeries` aborts the whole run (`log.Fatalf`), so no
list is produced and later devices are not processed. -/
def collectAll (fmtF : ℚ → String) (ts : List String) :
    List DeviceInfo → Except String (List String)
  | [] => Except.ok ts
  | d :: ds =>
      match getTimeSeries fmtF d with
      | Except.error e => Except.error e
      | Except.ok t => collectAll fmtF (ts ++ t) ds

/-- FS is the modelled filesystem: an association list from path to file
contents (first binding for a path wins). -/
abbrev FS := List (String × String)

/-- fsLookup reads the contents of the file at path `p`, if present. -/
def fsLookup (fs : FS) (p : String) : Option String :=
  match fs with
  | [] => none
  | (q, c) :: rest => if q = p then some c else fsLookup rest p

/-- fsSet creates or truncates-and-overwrites the file at path `p` with
contents `c`. -/
def fsSet (fs : FS) (p : String) (c : String) : FS :=
  match fs with
  | [] => [(p, c)]
  | (q, d) :: rest => if q = p then (p, c) :: rest else (q, d) :: fsSet rest p c

/-- fsRemove deletes the file at path `p`. -/
def fsRemove (fs : FS) (p : String) : FS :=
  match fs with
  | [] => []
  | (q, d) :: rest => if q = p then fsRemove rest p else (q, d) :: fsRemove rest p

/-- FSEnv injects failures of the OS calls made by `saveTimeSeries`:
whether `os.Create` fails, whether writing the i-th line fails, whether
the explicit `w.Close()` fails, and whether `os.Rename` fails.  The Go
source discards the error results of `Write` and `Close`, so those flags
can never surface as a returned error. -/
structure FSEnv where
  createFails : Bool
  writeFails : Nat → Bool
  closeFails : Bool
  renameFails : Bool

/-- envOk is the failure-free environment: every OS call succeeds. -/
def envOk : FSEnv where
  createFails := false
  writeFails := fun _ => false
  closeFails := false
  renameFails := false

/-- tempName embeds the temporary-file name at smartcollector.go line
109: `fmt.Sprintf("%s-%d-%d", fname, os.Getpid(), os.Getppid())`. -/
def tempName (fname : String) (pid ppid : Nat) : String :=
  fname ++ "-" ++ toString pid ++ "-" ++ toString ppid

/-- writeLines embeds the write loop at smartcollector.go lines 117–119:
each call `w.Write([]byte(v + "\n"))` appends the line plus a newline to
the open file; the error result of `Write` is discarded, so a failed
write (modelled as leaving the file unchanged) does not stop the loop. -/
def writeLines (env : FSEnv) (path : String) (i : Nat) (fs : FS) :
    List String → FS
  | [] => fs
  | v :: rest =>
      let fs1 :=
        if env.writeFails i then fs
        else fsSet fs path (((fsLookup fs path).getD "") ++ v ++ "\n")
      writeLines env path (i + 1) fs1 rest

/-- saveTimeSeries embeds the Go function `saveTimeSeries`
(smartcollector.go lines 107–128) over the modelled filesystem.  It
returns the filesystem after the call together with the error the Go
function returns (`none` for a nil error).  Faithful to the source:
only the errors of `os.Create` and `os.Rename` are checked; the error
results of the per-line `w.Write` and of both `w.Close()` calls are
discarded, and the rename is attempted even if writes failed. -/
def saveTimeSeries (env : FSEnv) (pid ppid : Nat) (fname : String)
    (ts : List String) (fs : FS) : FS × Option String :=
  let tempfile := tempName fname pid ppid
  if env.createFails then (fs, some "create failed")
  else
    let fs1 := fsSet fs tempfile ""
    let fs2 := writeLines env tempfile 0 fs1 ts
    -- w.Close(): the returned error is discarded; no state change modelled.
    if env.renameFails then (fs2, some "rename failed")
    else
      (fsSet (fsRemove fs2 tempfile) fname ((fsLookup fs2 tempfile).getD ""),
        none)

/-- outputStage embeds the output step of `main` (smartcollector.go lines
92–102): in dry-run mode every collected line is printed to standard
output (`fmt.Println`) and the filesystem is untouched; otherwise nothing
is printed and `saveTimeSeries` writes the file.  The result is the list
of stdout lines, the filesystem after the step, and the fatal error if
any. -/
def outputStage (dryRun : Bool) (env : FSEnv) (pid ppid : Nat)
    (fname : String) (ts : List String) (fs : FS) :
    List String × FS × Option String :=
  if dryRun then (ts, fs, none)
  else
    let r := saveTimeSeries env pid ppid fname ts fs
    ([], r.1, r.2)

/-- linesJoined is the file contents produced by writing every line
followed by a newline, in order. -/
def linesJoined : List String → String
  | [] => ""
  | v :: rest => v ++ "\n" ++ linesJoined rest

/-- envRenameFails is the environment in which every call succeeds except
the final `os.Rename`. -/
def envRenameFails : FSEnv where
  createFails := false
  writeFails := fun _ => false
  closeFails := false
  renameFails := true

/-- envFirstWriteFails is the environment in which the write of the first
line fails and every other call succeeds. -/
def envFirstWriteFails : FSEnv where
  createFails := false
  writeFails := fun i => i == 0
  closeFails := false
  renameFails := false

/-- enumSpec is the specification-side contract of a two-valued enum
attribute with key `k` and literals `o1` (mapped to 0.0) and `o2` (mapped
to 1.0): any third string is an error naming the invalid value and both
valid literals, and a non-string value is also an error. -/
def enumSpec (fmtF : ℚ → String) (k o1 o2 : String) : Prop :=
  attrValue fmtF k (GoValue.vstr o1) = some (Except.ok 0) ∧
  attrValue fmtF k (GoValue.vstr o2) = some (Except.ok 1) ∧
  (∀ s : String, s ≠ o1 → s ≠ o2 →
    attrValue fmtF k (GoValue.vstr s) =
      some (Except.error ("invalid option \"" ++ s ++ "\". Expected \"" ++
        o1 ++ "\" or \"" ++ o2 ++ "\""))) ∧
  (∀ x : ℚ, attrValue fmtF k (GoValue.vnum x) =
    some (Except.error ("invalid non-string argument " ++ fmtF x)))

theorem valueOneOf_other (fmtF : ℚ → String) (s o1 o2 : String)
    (h1 : s ≠ o1) (h2 : s ≠ o2) :
    valueOneOf fmtF (GoValue.vstr s) (o1, o2) =
      Except.error ("invalid option \"" ++ s ++ "\". Expected \"" ++ o1 ++
        "\" or \"" ++ o2 ++ "\"") := by
  show (if s = o1 then Except.ok 0
      else if s = o2 then Except.ok 1
      else Except.error ("invalid option " ++ ("\"" ++ s ++ "\"") ++
        ". Expected " ++ ("\"" ++ o1 ++ "\"") ++ " or " ++
        ("\"" ++ o2 ++ "\""))) = _
  rw [if_neg h1, if_neg h2]
  congr 1
  apply String.ext
  simp [String.data_append]

theorem fsLookup_fsSet_self (fs : FS) (p c : String) :
    fsLookup (fsSet fs p c) p = some c := by
  induction fs with
  | nil => simp [fsSet, fsLookup]
  | cons hd tl ih =>
      obtain ⟨q, d⟩ := hd
      by_cases h : q = p
      · simp [fsSet, fsLookup, h]
      · simp [fsSet, fsLookup, h, ih]

theorem fsLookup_fsSet_ne (fs : FS) (p q c : String) (h : q ≠ p) :
    fsLookup (fsSet fs p c) q = fsLookup fs q := by
  have h' : p ≠ q := Ne.symm h
  induction fs with
  | nil => simp [fsSet, fsLookup, h']
  | cons hd tl ih =>
      obtain ⟨r, d⟩ := hd
      by_cases hr : r = p
      · subst hr
        simp [fsSet, fsLookup, h']
      · simp [fsSet, fsLookup, hr, ih]

theorem fsLookup_fsRemove_self (fs : FS) (p : String) :
    fsLookup (fsRemove fs p) p = none := by
  induction fs with
  | nil => simp [fsRemove, fsLookup]
  | cons hd tl ih =>
      obtain ⟨q, d⟩ := hd
      by_cases h : q = p
      · simp [fsRemove, h, ih]
      · simp [fsRemove, fsLookup, h, ih]

theorem tempName_ne (fname : String) (pid ppid : Nat) :
    tempName fname pid ppid ≠ fname := by
  intro h
  have hlen := congrArg String.length h
  have hdash : ("-" : String).length = 1 := rfl
  simp [tempName, String.length_append, hdash] at hlen
  omega

theorem writeLines_lookup_of_writes_ok (env : FSEnv) (path : String)
    (hw : ∀ i, env.writeFails i = false) (ts : List String) :
    ∀ (i : Nat) (fs : FS) (c : String), fsLookup fs path = some c →
      fsLookup (writeLines env path i fs ts) path = some (c ++ linesJoined ts) := by
  induction ts with
  | nil =>
      intro i fs c h
      simpa [writeLines, linesJoined, String.append_empty] using h
  | cons v rest ih =>
      intro i fs c h
      have step : writeLines env path i fs (v :: rest) =
          writeLines env path (i + 1) (fsSet fs path (c ++ v ++ "\n")) rest := by
        simp [writeLines, hw i, h]
      rw [step, ih (i + 1) _ (c ++ v ++ "\n") (fsLookup_fsSet_self ..)]
      congr 1
      apply String.ext
      simp [linesJoined, String.data_append]

theorem saveTimeSeries_writes_ok_spec (env : FSEnv) (pid ppid : Nat)
    (fname : String) (ts : List String) (fs : FS)
    (hc : env.createFails = false) (hw : ∀ i, env.writeFails i = false) :
    (env.renameFails = true →
      (saveTimeSeries env pid ppid fname ts fs).2 ≠ none ∧
      fsLookup (saveTimeSeries env pid ppid fname ts fs).1
        (tempName fname pid ppid) = some (linesJoined ts)) ∧
    (env.renameFails = false →
      (saveTimeSeries env pid ppid fname ts fs).2 = none ∧
      fsLookup (saveTimeSeries env pid ppid fname ts fs).1 fname =
        some (linesJoined ts) ∧
      fsLookup (saveTimeSeries env pid ppid fname ts fs).1
        (tempName fname pid ppid) = none) := by
  have hw2 : fsLookup
      (writeLines env (tempName fname pid ppid) 0
        (fsSet fs (tempName fname pid ppid) "") ts)
      (tempName fname pid ppid) = some ("" ++ linesJoined ts) :=
    writeLines_lookup_of_writes_ok env (tempName fname pid ppid) hw ts 0 _ ""
      (fsLookup_fsSet_self ..)
  have hw3 : fsLookup
      (writeLines env (tempName fname pid ppid) 0
        (fsSet fs (tempName fname pid ppid) "") ts)
      (tempName fname pid ppid) = some (linesJoined ts) := by
    simpa [String.empty_append] using hw2
  constructor
  · intro hr
    refine ⟨?_, ?_⟩ <;> simp [saveTimeSeries, hc, hr, hw3]
  · intro hr
    refine ⟨?_, ?_, ?_⟩
    · simp [saveTimeSeries, hc, hr]
    · simp [saveTimeSeries, hc, hr, fsLookup_fsSet_self, hw3]
    · simp [saveTimeSeries, hc, hr,
        fsLookup_fsSet_ne _ _ _ _ (tempName_ne fname pid ppid),
        fsLookup_fsRemove_self]

/-- C1: the claim states that for alarmState, carbonMonoxide and smoke
the string "clear" yields 0.0 and every other string yields 1.0.  The
code's `valueClear` does the opposite of the claim (and of its own doc
comment): "clear" yields 1.0 and every other string, including the empty
string a nil value becomes, yields 0.0; only the non-string-is-an-error
part of the claim holds.  This theorem evaluates the code at the failing
inputs, through each of the three attribute keys. -/
theorem C1_valueClear_inverted :
    attrValue (fun _ => "3") "alarmState" (GoValue.vstr "clear") =
      some (Except.ok 1) ∧
    attrValue (fun _ => "3") "carbonMonoxide" (GoValue.vstr "detected") =
      some (Except.ok 0) ∧
    attrValue (fun _ => "3") "smoke" (nilToEmpty GoValue.vnil) =
      some (Except.ok 0) ∧
    attrValue (fun _ => "3") "alarmState" (GoValue.vnum 3) =
      some (Except.error "invalid non-string argument 3") :=
  ⟨rfl, rfl, rfl, rfl⟩

/-- C2 counterexample: with the write of the first line failing and every
other call succeeding, `saveTimeSeries` still performs the rename and
returns a nil error, leaving the target path holding only the second line
— refuting both "returns the failure if any step fails" and "if writing a
line fails it does not attempt the rename / never leaves the target in a
partially written state". -/
theorem C2_write_failure_ignored :
    (saveTimeSeries envFirstWriteFails 1 2 "out" ["a", "b"] []).2 = none ∧
    fsLookup (saveTimeSeries envFirstWriteFails 1 2 "out" ["a", "b"] []).1
      "out" = some "b\n" :=
  ⟨rfl, rfl⟩

/-- C2 amended: `saveTimeSeries` returns a nil error exactly when
temporary-file creation and the final rename both succeed; the error
results of the per-line writes and of close are discarded, so a write or
close failure never surfaces and the rename is still attempted. -/
theorem C2_error_propagation (env : FSEnv) (pid ppid : Nat) (fname : String)
    (ts : List String) (fs : FS) :
    (saveTimeSeries env pid ppid fname ts fs).2 = none ↔
      env.createFails = false ∧ env.renameFails = false := by
  cases hc : env.createFails <;> cases hr : env.renameFails <;>
    simp [saveTimeSeries, hc, hr]

/-- C3: each two-valued enum attribute maps its first literal to 0.0 and
its second to 1.0; any other string is an error naming the invalid value
and both valid literals, and a non-string value is an error; in
particular a device whose switch attribute is "unknown" produces an error
mentioning "on" and "off" and no output lines. -/
theorem C3_enum_attrs (fmtF : ℚ → String) :
    enumSpec fmtF "contact" "open" "closed" ∧
    enumSpec fmtF "motion" "inactive" "active" ∧
    enumSpec fmtF "presence" "absent" "present" ∧
    enumSpec fmtF "switch" "off" "on" ∧
    getTimeSeries fmtF ⟨"d9", "Sw", [("switch", GoValue.vstr "unknown")]⟩ =
      Except.error "invalid option \"unknown\". Expected \"off\" or \"on\"" :=
  ⟨⟨rfl, rfl,
      fun s h1 h2 => congrArg some (valueOneOf_other fmtF s "open" "closed" h1 h2),
      fun _ => rfl⟩,
    ⟨rfl, rfl,
      fun s h1 h2 =>
        congrArg some (valueOneOf_other fmtF s "inactive" "active" h1 h2),
      fun _ => rfl⟩,
    ⟨rfl, rfl,
      fun s h1 h2 =>
        congrArg some (valueOneOf_other fmtF s "absent" "present" h1 h2),
      fun _ => rfl⟩,
    ⟨rfl, rfl,
      fun s h1 h2 => congrArg some (valueOneOf_other fmtF s "off" "on" h1 h2),
      fun _ => rfl⟩,
    rfl⟩

/-- C4: for battery, energy, power and temperature a value of dynamic
float type passes through unchanged, and a value of any other dynamic
type — including a numeric-looking string — is an error rather than being
parsed. -/
theorem C4_numeric_passthrough (fmtF : ℚ → String) (x : ℚ) (s : String) :
    ∀ k ∈ (["battery", "energy", "power", "temperature"] : List String),
      attrValue fmtF k (GoValue.vnum x) = some (Except.ok x) ∧
      attrValue fmtF k (GoValue.vstr s) =
        some (Except.error ("invalid non floating-point argument " ++ s)) := by
  intro k hk
  simp only [List.mem_cons, List.not_mem_nil, or_false] at hk
  rcases hk with rfl | rfl | rfl | rfl
  all_goals exact ⟨rfl, rfl⟩

/-- C4 witness: battery passes 87.5 through unchanged, and the
numeric-looking string "87.5" fails. -/
theorem C4_numeric_passthrough_witness :
    attrValue (fun _ => "") "battery" (GoValue.vnum (87.5 : ℚ)) =
      some (Except.ok (87.5 : ℚ)) ∧
    attrValue (fun _ => "") "battery" (GoValue.vstr "87.5") =
      some (Except.error ("invalid non floating-point argument " ++ "87.5")) :=
  C4_numeric_passthrough (fun _ => "") 87.5 "87.5" "battery" (by decide)

/-- C3 witness: the switch attribute with value "unknown" yields the
error naming "unknown", "off" and "on". -/
theorem C3_enum_attrs_witness :
    attrValue (fun _ => "") "switch" (GoValue.vstr "unknown") =
      some (Except.error "invalid option \"unknown\". Expected \"off\" or \"on\"") :=
  (C3_enum_attrs (fun _ => "")).2.2.2.1.2.2.1 "unknown" (by decide) (by decide)

theorem getTimeSeriesAux_error_of_split (fmtF : ℚ → String)
    (id name k : String) (v : GoValue) (e : String)
    (rest : List (String × GoValue))
    (herr : attrValue fmtF k (nilToEmpty v) = some (Except.error e)) :
    ∀ (good : List (String × GoValue)) (acc : List String),
      (∀ p ∈ good, ∀ e',
        attrValue fmtF p.1 (nilToEmpty p.2) ≠ some (Except.error e')) →
      getTimeSeriesAux fmtF id name acc (good ++ (k, v) :: rest) =
        Except.error e := by
  intro good
  induction good with
  | nil =>
      intro acc _
      simp [getTimeSeriesAux, herr]
  | cons p good' ih =>
      intro acc hgood
      obtain ⟨k', v'⟩ := p
      have hgood' : ∀ q ∈ good', ∀ e',
          attrValue fmtF q.1 (nilToEmpty q.2) ≠ some (Except.error e') :=
        fun q hq => hgood q (List.mem_cons_of_mem _ hq)
      rcases h : attrValue fmtF k' (nilToEmpty v') with _ | r
      · simpa [getTimeSeriesAux, h] using ih acc hgood'
      · rcases r with e' | value
        · exact absurd h (hgood ⟨k', v'⟩ (List.mem_cons_self _ _) e')
        · simpa [getTimeSeriesAux, h] using ih _ hgood'

/-- C5: with every attribute before the failing one interpreting without
error, the first failing attribute makes `getTimeSeries` return exactly
that error — no partial list of lines for the device accompanies it, the
remaining attributes are not reached — and the whole multi-device run
aborts with the same error, so later devices are not processed. -/
theorem C5_fail_fast (fmtF : ℚ → String) (id name : String)
    (good rest : List (String × GoValue)) (k : String) (v : GoValue)
    (e : String) (ts : List String) (ds : List DeviceInfo)
    (hgood : ∀ p ∈ good, ∀ e',
      attrValue fmtF p.1 (nilToEmpty p.2) ≠ some (Except.error e'))
    (herr : attrValue fmtF k (nilToEmpty v) = some (Except.error e)) :
    getTimeSeries fmtF ⟨id, name, good ++ (k, v) :: rest⟩ = Except.error e ∧
    collectAll fmtF ts (⟨id, name, good ++ (k, v) :: rest⟩ :: ds) =
      Except.error e := by
  have h1 : getTimeSeries fmtF ⟨id, name, good ++ (k, v) :: rest⟩ =
      Except.error e :=
    getTimeSeriesAux_error_of_split fmtF id name k v e rest herr good [] hgood
  exact ⟨h1, by simp [collectAll, h1]⟩

/-- C5 witness: a device whose contact attribute is fine but whose switch
attribute is "unknown" aborts with the switch error, dropping the contact
line and skipping the battery attribute and the following device. -/
theorem C5_fail_fast_witness :
    getTimeSeries (fun _ => "") ⟨"d1", "Door",
      [("contact", GoValue.vstr "open")] ++ ("switch", GoValue.vstr "unknown") ::
        [("battery", GoValue.vnum 1)]⟩ =
      Except.error "invalid option \"unknown\". Expected \"off\" or \"on\"" ∧
    collectAll (fun _ => "") []
      (⟨"d1", "Door", [("contact", GoValue.vstr "open")] ++
          ("switch", GoValue.vstr "unknown") :: [("battery", GoValue.vnum 1)]⟩ ::
        [⟨"d2", "Lamp", [("switch", GoValue.vstr "on")]⟩]) =
      Except.error "invalid option \"unknown\". Expected \"off\" or \"on\"" :=
  C5_fail_fast (fun _ => "") "d1" "Door" [("contact", GoValue.vstr "open")]
    [("battery", GoValue.vnum 1)] "switch" (GoValue.vstr "unknown")
    "invalid option \"unknown\". Expected \"off\" or \"on\"" []
    [⟨"d2", "Lamp", [("switch", GoValue.vstr "on")]⟩]
    (by
      intro p hp e' hc
      rw [List.mem_singleton] at hp
      subst hp
      rw [show attrValue (fun _ : ℚ => "") ("contact", GoValue.vstr "open").1
          (nilToEmpty ("contact", GoValue.vstr "open").2) =
          some (Except.ok 0) from rfl] at hc
      simp at hc)
    rfl

/-- C6: the device {id:"d1", name:"Door", attributes:{contact:"open",
battery:87.5, foo:"bar"}} yields exactly two lines of the documented
shape — contact with value 0.0 and battery with value 87.5 — the
unrecognized key "foo" is dropped, and no error occurs; this holds for
every rendering `fmtF` of the platform's default floating-point textual
form. -/
theorem C6_round_trip (fmtF : ℚ → String) :
    getTimeSeries fmtF ⟨"d1", "Door",
      [("contact", GoValue.vstr "open"), ("battery", GoValue.vnum 87.5),
        ("foo", GoValue.vstr "bar")]⟩ =
      Except.ok
        ["smartthings_sensors\x7bid=\"d1\" name=\"Door\" attr=\"contact\"\x7d = " ++
            fmtF 0,
          "smartthings_sensors\x7bid=\"d1\" name=\"Door\" attr=\"battery\"\x7d = " ++
            fmtF 87.5] :=
  rfl

/-- C7: the temporary path is the target path plus a pid/ppid suffix; the
lines, each followed by a newline and in order, are written to that
temporary file (visible when the rename is the step that fails); and when
everything succeeds the rename installs exactly that content at the
target path — replacing whatever the arbitrary prior filesystem `fs` held
there — and removes the temporary path. -/
theorem C7_temp_write_then_rename (pid ppid : Nat) (fname : String)
    (ts : List String) (fs : FS) :
    tempName fname pid ppid =
      fname ++ ("-" ++ toString pid ++ "-" ++ toString ppid) ∧
    fsLookup (saveTimeSeries envRenameFails pid ppid fname ts fs).1
      (tempName fname pid ppid) = some (linesJoined ts) ∧
    (saveTimeSeries envOk pid ppid fname ts fs).2 = none ∧
    fsLookup (saveTimeSeries envOk pid ppid fname ts fs).1 fname =
      some (linesJoined ts) ∧
    fsLookup (saveTimeSeries envOk pid ppid fname ts fs).1
      (tempName fname pid ppid) = none := by
  have h1 := (saveTimeSeries_writes_ok_spec envRenameFails pid ppid fname ts fs
    rfl (fun _ => rfl)).1 rfl
  have h2 := (saveTimeSeries_writes_ok_spec envOk pid ppid fname ts fs
    rfl (fun _ => rfl)).2 rfl
  refine ⟨?_, h1.2, h2.1, h2.2.1, h2.2.2⟩
  apply String.ext
  simp [tempName, String.data_append]

/-- C8: in dry-run mode the writer is bypassed — the exact collected line
list goes to standard output, the filesystem is untouched and no error
occurs — while in normal mode nothing is printed and the very same list
is persisted at the target path, one line per output line in input
order. -/
theorem C8_dry_run_equiv (env : FSEnv) (pid ppid : Nat) (fname : String)
    (ts : List String) (fs : FS) :
    outputStage true env pid ppid fname ts fs = (ts, fs, none) ∧
    (outputStage false envOk pid ppid fname ts fs).1 = [] ∧
    fsLookup (outputStage false envOk pid ppid fname ts fs).2.1 fname =
      some (linesJoined ts) := by
  refine ⟨rfl, rfl, ?_⟩
  simpa [outputStage] using
    ((saveTimeSeries_writes_ok_spec envOk pid ppid fname ts fs rfl
      (fun _ => rfl)).2 rfl).2.1

/-- C9: an attribute whose key is not one of the eleven recognized ones
is skipped for every value: its interpretation is the `continue` branch,
and processing the device is exactly as if the attribute were absent —
no output line and no error come from it. -/
theorem C9_unrecognized_skipped (fmtF : ℚ → String) (id name : String)
    (acc : List String) (k : String) (v : GoValue)
    (rest : List (String × GoValue))
    (h : k ∉ (["alarmState", "battery", "carbonMonoxide", "contact", "energy",
      "motion", "power", "presence", "smoke", "switch", "temperature"] :
        List String)) :
    attrValue fmtF k (nilToEmpty v) = none ∧
    getTimeSeriesAux fmtF id name acc ((k, v) :: rest) =
      getTimeSeriesAux fmtF id name acc rest := by
  simp only [List.mem_cons, List.not_mem_nil, or_false, not_or] at h
  obtain ⟨h1, h2, h3, h4, h5, h6, h7, h8, h9, h10, h11⟩ := h
  have ha : attrValue fmtF k (nilToEmpty v) = none := by
    simp [attrValue, h1, h2, h3, h4, h5, h6, h7, h8, h9, h10, h11]
  exact ⟨ha, by simp [getTimeSeriesAux, ha]⟩

/-- C9 witness: the key "foo" with value "bar" is skipped. -/
theorem C9_unrecognized_skipped_witness :
    attrValue (fun _ => "") "foo" (nilToEmpty (GoValue.vstr "bar")) = none ∧
    getTimeSeriesAux (fun _ => "") "d1" "Door" [] [("foo", GoValue.vstr "bar")] =
      getTimeSeriesAux (fun _ => "") "d1" "Door" [] [] :=
  C9_unrecognized_skipped (fun _ => "") "d1" "Door" [] "foo"
    (GoValue.vstr "bar") [] (by decide)

/-- C10: called with an empty line list, `saveTimeSeries` still creates
the temporary file and renames it onto the target, so whatever an
arbitrary prior filesystem held at the target path is replaced by an
existing zero-length file. -/
theorem C10_empty_ts_replaces (pid ppid : Nat) (fname : String) (fs : FS) :
    (saveTimeSeries envOk pid ppid fname [] fs).2 = none ∧
    fsLookup (saveTimeSeries envOk pid ppid fname [] fs).1 fname = some "" := by
  have h := (saveTimeSeries_writes_ok_spec envOk pid ppid fname [] fs rfl
    (fun _ => rfl)).2 rfl
  exact ⟨h.1, by simpa [linesJoined] using h.2.1⟩
